import Mathlib

/-!
Shallow embedding of etl.py, a two-pipeline Spark batch ETL job that reshapes song
and usage-log JSON records into a star schema (songs, artists, users, time,
songplays) and writes each table as partitioned parquet files.

Dataframes are modelled as lists of rows.  Engine operations that the script
delegates to Spark (schema application on read, column resolution in select,
save modes on write, Python udf evaluation, column functions on timestamps,
monotonically_increasing_id) are modelled by their documented Spark semantics;
each model definition carries a comment naming the etl.py line it embeds.

Timestamp values (Spark TimestampType) are represented by their count of epoch
milliseconds: the ts field of a log record is epoch milliseconds, and
datetime.datetime.fromtimestamp(ts / 1000) denotes the timestamp with exactly
that many epoch milliseconds, so the representation is exact.  Calendar fields
are extracted with the session timezone modelled as UTC, using the standard
era-based proleptic-Gregorian algorithms that back java.time (and hence the
Spark date functions).
-/

namespace ETL

/-- Decidable equality for Except values; needed to evaluate the embedded tables
on concrete inputs. -/
instance exceptDecEq {ε α : Type} [DecidableEq ε] [DecidableEq α] :
    DecidableEq (Except ε α) := fun a b =>
  match a, b with
  | Except.ok x, Except.ok y =>
    if h : x = y then isTrue (by rw [h]) else isFalse (fun hc => by cases hc; exact h rfl)
  | Except.error e, Except.error f =>
    if h : e = f then isTrue (by rw [h]) else isFalse (fun hc => by cases hc; exact h rfl)
  | Except.ok _, Except.error _ => isFalse (fun hc => Except.noConfusion hc)
  | Except.error _, Except.ok _ => isFalse (fun hc => Except.noConfusion hc)

/-! ## Generic dataframe model (song pipeline side) -/

/-- Cell value of a schema-typed dataframe; every JSON-derived field is nullable. -/
inductive Value where
  | null
  | str (s : String)
  | long (n : Int)
  | double (q : ℚ)
deriving DecidableEq

/-- Row of a dataframe: an association of column names to values. -/
abbrev Row := List (String × Value)

/-- Dataframe: a declared schema (column names) together with its rows. -/
structure DataFrame where
  schema : List String
  rows : List Row
deriving DecidableEq

/-- Model of spark.read.json with an explicit schema argument: every resulting row
carries exactly the declared schema fields, and a field that is absent from the
JSON record coerces to null (Spark JSON-to-schema coercion). -/
def readJsonWithSchema (schema : List String) (records : List Row) : DataFrame :=
  ⟨schema, records.map (fun r => schema.map (fun c => (c, (r.lookup c).getD Value.null)))⟩

/-- Error message for an unresolvable column reference. -/
def analysisErrorMsg : String := "AnalysisException: cannot resolve a column that is not on the dataframe schema"

/-- Model of DataFrame.select: each referenced column must resolve against the
dataframe schema; referencing a column that the schema does not declare raises
AnalysisException (it does not resolve to null). -/
def DataFrame.select (df : DataFrame) (cols : List String) : Except String DataFrame :=
  if cols.all (fun c => df.schema.contains c) then
    Except.ok ⟨cols, df.rows.map (fun r => cols.map (fun c => (c, (r.lookup c).getD Value.null)))⟩
  else Except.error analysisErrorMsg

/-! ## Song pipeline (process_song_data, etl.py lines 29-78) -/

/-- Field names of song_data_schema as declared at etl.py lines 42-51.  Note that
neither a title field nor a num_songs field is declared. -/
def song_data_schema : List String :=
  ["song_id", "year", "duration", "artist_id", "artist_name",
   "artist_location", "artist_latitude", "artist_longitude"]

/-- Embeds spark.read.json(song_data, schema=song_data_schema) at etl.py line 54. -/
def song_df (records : List Row) : DataFrame :=
  readJsonWithSchema song_data_schema records

/-- Embeds songs_table = song_df.select(song_id, title, artist_id, year, duration)
at etl.py line 69. -/
def songs_table (df : DataFrame) : Except String DataFrame :=
  df.select ["song_id", "title", "artist_id", "year", "duration"]

/-- Embeds artists_table = song_df.select(artist_id, artist_name, artist_location,
artist_latitude, artist_longitude, num_songs) at etl.py line 75. -/
def artists_table (df : DataFrame) : Except String DataFrame :=
  df.select ["artist_id", "artist_name", "artist_location",
             "artist_latitude", "artist_longitude", "num_songs"]

/-- Sample raw song JSON record used as a concrete input. -/
def sampleSongRecord : Row :=
  [("song_id", Value.str ("S1")), ("title", Value.str ("T1")),
   ("artist_id", Value.str ("A1")), ("artist_name", Value.str ("Artist X")),
   ("year", Value.str ("2000")), ("duration", Value.double (361 / 2))]

/-! ## Write model (save modes) -/

/-- Save mode of a DataFrameWriter. -/
inductive SaveMode where
  | errorIfExists
  | overwrite
  | append
deriving DecidableEq

/-- Save mode used when a write call sets no mode: the pyspark DataFrameWriter
default is errorifexists. -/
def defaultSaveMode : SaveMode := SaveMode.errorIfExists

/-- Model of DataFrameWriter.parquet at a target location: existing is the prior
content at that location if present. -/
def writeParquet (mode : SaveMode) (existing : Option (List Row)) (rows : List Row) :
    Except String (List Row) :=
  match mode, existing with
  | SaveMode.errorIfExists, some _ => Except.error ("AnalysisException: path already exists")
  | SaveMode.errorIfExists, none => Except.ok rows
  | SaveMode.overwrite, _ => Except.ok rows
  | SaveMode.append, some old => Except.ok (old ++ rows)
  | SaveMode.append, none => Except.ok rows

/-- Output writes issued by etl.py with their save modes: the five write calls
(lines 72, 78, 140, 161, 193) all chain .write(...).parquet(...) without a
mode(...) call, so each uses defaultSaveMode. -/
def etl_write_modes : List (String × SaveMode) :=
  [("songs_table.parquet", defaultSaveMode),
   ("artists_table.parquet", defaultSaveMode),
   ("users_table.parquet", defaultSaveMode),
   ("time_table.parquet", defaultSaveMode),
   ("songplays_table.parquet", defaultSaveMode)]

/-! ## Raw-input read calls (for the explicit-schema claim) -/

/-- One spark.read.json call: the path glob and the schema argument, if any. -/
structure ReadCall where
  path : String
  schema : Option (List String)
deriving DecidableEq

/-- Input root fixed by main (etl.py line 198). -/
def input_data : String := "s3a://udacity-dend/"

/-- Song source glob (etl.py lines 39 and 164). -/
def song_data_path : String := input_data ++ "data/song_data/song_data/*/*/*/*.json"

/-- Log source glob (etl.py line 92). -/
def log_data_path : String := input_data ++ "data/log_data/*.json"

/-- Field names of log_data_schema as declared at etl.py lines 95-114. -/
def log_data_schema : List String :=
  ["artist", "auth", "firstName", "gender", "itemInSession", "lastName", "length",
   "level", "location", "method", "page", "registration", "sessionId", "song",
   "status", "ts", "userAgent", "userId"]

/-- Read calls issued by process_song_data: line 54 passes song_data_schema. -/
def process_song_data_reads : List ReadCall :=
  [⟨song_data_path, some song_data_schema⟩]

/-- Read calls issued by process_log_data: line 117 passes log_data_schema, while
line 165 re-reads the raw song source with no schema argument, so that read
relies on schema inference. -/
def process_log_data_reads : List ReadCall :=
  [⟨log_data_path, some log_data_schema⟩, ⟨song_data_path, none⟩]

/-- All raw-input reads of one run in order: main calls process_song_data and then
process_log_data (etl.py lines 201-202). -/
def main_reads : List ReadCall := process_song_data_reads ++ process_log_data_reads

/-! ## Log pipeline rows (process_log_data, etl.py lines 81-193) -/

/-- Raw log record under log_data_schema (etl.py lines 95-114): every field is
nullable.  Field defaults of none are a notational convenience for building
concrete records and carry no semantics. -/
structure LogRow where
  artist : Option String := none
  auth : Option String := none
  firstName : Option String := none
  gender : Option String := none
  itemInSession : Option Int := none
  lastName : Option String := none
  length : Option ℚ := none
  level : Option String := none
  location : Option String := none
  method : Option String := none
  page : Option String := none
  registration : Option ℚ := none
  sessionId : Option Int := none
  song : Option String := none
  status : Option Int := none
  ts : Option Int := none
  userAgent : Option String := none
  userId : Option String := none
deriving DecidableEq

/-- SQL equality on nullable strings: a comparison involving NULL is not a match
(it yields NULL, which a filter or join treats as false). -/
def sqlEqString (a b : Option String) : Bool :=
  match a, b with
  | some x, some y => x == y
  | _, _ => false

/-- Embeds log_df.filter(log_df.page == 'NextSong') at etl.py line 134. -/
def filterNextSong (rows : List LogRow) : List LogRow :=
  rows.filter (fun r => sqlEqString r.page (some ("NextSong")))

/-- Row of the users table. -/
structure UserRow where
  firstName : Option String
  lastName : Option String
  gender : Option String
  level : Option String
  userId : Option String
deriving DecidableEq

/-- Embeds users_table = log_df.select(firstName, lastName, gender, level, userId)
at etl.py line 137, over the filtered log dataframe.  The select is a plain
column projection: no deduplication is applied. -/
def users_table (rows : List LogRow) : List UserRow :=
  (filterNextSong rows).map
    (fun r => ⟨r.firstName, r.lastName, r.gender, r.level, r.userId⟩)

/-! ## Timestamp and calendar derivations -/

/-- Embeds get_timestamp = udf(lambda x: datetime.datetime.fromtimestamp(x / 1000),
TimestampType()) at etl.py line 143: ts holds epoch milliseconds, and the
resulting timestamp is represented by that same millisecond count (the
representation note in the file header).  A null ts reaches the Python lambda as
None and the division raises TypeError, so the udf evaluation fails. -/
def get_timestamp (ts : Option Int) : Except String Int :=
  match ts with
  | none => Except.error ("TypeError: unsupported operand type for division: NoneType")
  | some x => Except.ok x

/-- Embeds get_datetime = udf(lambda x: F.to_date(x), TimestampType()) at etl.py
line 147.  F.to_date is a driver-side Column constructor from
pyspark.sql.functions, not a value-level function: invoked inside an
executor-side udf on a plain integer it raises (there is no active SparkContext
on an executor, and an integer is not a Column), so for every row the udf
evaluation fails instead of yielding a timestamp value. -/
def get_datetime (_ts : Option Int) : Except String Int :=
  Except.error ("AttributeError: pyspark.sql.functions.to_date cannot be evaluated inside a udf")

/-- Whole epoch seconds of a timestamp given in epoch milliseconds (floor). -/
def tsSeconds (ms : Int) : Int := Int.ediv ms 1000

/-- Days since 1970-01-01 of a timestamp given in epoch milliseconds (floor). -/
def tsDays (ms : Int) : Int := Int.ediv (tsSeconds ms) 86400

/-- Embeds F.hour (etl.py line 151): hour of day of the timestamp, UTC. -/
def F_hour (ms : Int) : Nat := (Int.emod (tsSeconds ms) 86400).toNat / 3600

/-- Civil proleptic-Gregorian date (year, month, day) from days since 1970-01-01,
by the standard era-based algorithm that backs java.time. -/
def civilFromDays (z : Int) : Int × Nat × Nat :=
  let z2 := z + 719468
  let era := Int.ediv z2 146097
  let doe : Nat := (Int.emod z2 146097).toNat
  let yoe : Nat := (doe - doe / 1460 + doe / 36524 - doe / 146096) / 365
  let doy : Nat := doe - (365 * yoe + yoe / 4 - yoe / 100)
  let mp : Nat := (5 * doy + 2) / 153
  let d : Nat := doy - (153 * mp + 2) / 5 + 1
  let m : Nat := if mp < 10 then mp + 3 else mp - 9
  let y : Int := (yoe : Int) + era * 400 + (if m ≤ 2 then 1 else 0)
  (y, m, d)

/-- Days since 1970-01-01 of a civil proleptic-Gregorian date (inverse era-based
algorithm). -/
def daysFromCivil (y : Int) (m d : Nat) : Int :=
  let y2 := if m ≤ 2 then y - 1 else y
  let era := Int.ediv y2 400
  let yoe : Nat := (y2 - era * 400).toNat
  let mp : Nat := if 2 < m then m - 3 else m + 9
  let doy : Nat := (153 * mp + 2) / 5 + d - 1
  let doe : Nat := yoe * 365 + yoe / 4 - yoe / 100 + doy
  era * 146097 + (doe : Int) - 719468

/-- Embeds F.month (etl.py line 154): calendar month of the timestamp, UTC. -/
def F_month (ms : Int) : Nat := (civilFromDays (tsDays ms)).2.1

/-- Embeds F.year (etl.py line 155): calendar year of the timestamp, UTC. -/
def F_year (ms : Int) : Int := (civilFromDays (tsDays ms)).1

/-- Embeds F.dayofweek (etl.py lines 152 and 156): day of week of the timestamp,
1 = Sunday through 7 = Saturday; 1970-01-01 (day zero) was a Thursday. -/
def F_dayofweek (ms : Int) : Nat := (Int.emod (tsDays ms + 4) 7).toNat + 1

/-- ISO leap-week indicator term used by the ISO-8601 week rules. -/
def isoP (y : Int) : Int :=
  Int.emod (y + Int.ediv y 4 - Int.ediv y 100 + Int.ediv y 400) 7

/-- Number of ISO-8601 weeks in the ISO year y: 52 or 53. -/
def isoWeeksInYear (y : Int) : Nat :=
  if isoP y = 4 ∨ isoP (y - 1) = 3 then 53 else 52

/-- ISO-8601 clamping of the raw week index: a date falling before week 1 belongs
to the last week of the previous ISO year, and one falling after the last week
of the current ISO year belongs to week 1 of the next. -/
def isoWeekClamp (w : Int) (wPrev wCur : Nat) : Nat :=
  if w < 1 then wPrev else if (wCur : Int) < w then 1 else w.toNat

/-- Embeds F.weekofyear (etl.py line 153): ISO-8601 week number of the date of the
timestamp, UTC.  The raw index is (dayOfYear - isoDayOfWeek + 10) / 7 with
isoDayOfWeek 1 = Monday through 7 = Sunday, clamped by the ISO rules. -/
def F_weekofyear (ms : Int) : Nat :=
  isoWeekClamp
    (Int.ediv ((tsDays ms - daysFromCivil (civilFromDays (tsDays ms)).1 1 1 + 1)
        - (Int.emod (tsDays ms + 3) 7 + 1) + 10) 7)
    (isoWeeksInYear ((civilFromDays (tsDays ms)).1 - 1))
    (isoWeeksInYear (civilFromDays (tsDays ms)).1)

/-! ## Time table -/

/-- Row of log_df after the withColumn chain at etl.py lines 144-156, restricted to
the columns that the time table selects: each derived column holds the value the
udf or column function produced for the row, or the error the udf raised. -/
structure TimeRow where
  start_time : Except String Int
  hour : Except String Nat
  day : Except String Nat
  week : Except String Nat
  month : Except String Nat
  year : Except String Int
  weekday : Except String Nat
deriving DecidableEq

/-- Derived columns of one filtered log row (etl.py lines 144-156): timestamp from
get_timestamp(ts), start_time from get_datetime(ts), and the calendar columns
from the timestamp column. -/
def mkTimeRow (r : LogRow) : TimeRow :=
  { start_time := get_datetime r.ts
    hour := (get_timestamp r.ts).map F_hour
    day := (get_timestamp r.ts).map F_dayofweek
    week := (get_timestamp r.ts).map F_weekofyear
    month := (get_timestamp r.ts).map F_month
    year := (get_timestamp r.ts).map F_year
    weekday := (get_timestamp r.ts).map F_dayofweek }

/-- Embeds time_table = log_df.select(start_time, hour, day, week, month, year,
weekday) at etl.py line 158, over the filtered log dataframe. -/
def time_table (rows : List LogRow) : List TimeRow :=
  (filterNextSong rows).map mkTimeRow

/-- Embeds the time table write at etl.py line 161: writing materialises every
selected column of every row, so a row whose udf raised fails the job. -/
def time_table_write (rows : List LogRow) : Except String (List TimeRow) :=
  if (time_table rows).all (fun tr =>
      tr.start_time.isOk && tr.hour.isOk && tr.day.isOk && tr.week.isOk
        && tr.month.isOk && tr.year.isOk && tr.weekday.isOk) then
    Except.ok (time_table rows)
  else Except.error ("Py4JJavaError: udf raised while evaluating the time table rows")

/-! ## Songplays -/

/-- Raw song record of the schemaless re-read at etl.py line 165, restricted to the
fields the songplays query references (st.song_id, st.artist_id,
st.artist_name); the inferred schema carries them all when present in the
data. -/
structure SongRow where
  song_id : Option String
  artist_id : Option String
  artist_name : Option String
deriving DecidableEq

/-- Row of the songplays table as selected by the SQL query at etl.py
lines 171-187. -/
structure SongplayRow where
  start_time : Except String Int
  userId : Option String
  level : Option String
  sessionId : Option Int
  location : Option String
  userAgent : Option String
  song_id : Option String
  artist_id : Option String
  year : Except String Int
  month : Except String Nat
deriving DecidableEq

/-- SQL equality on the derived timestamp column: two values match only when both
udf evaluations produced a value and the values agree. -/
def sqlEqTimestamp (a b : Except String Int) : Bool :=
  match a, b with
  | Except.ok x, Except.ok y => x == y
  | _, _ => false

/-- Embeds the songplays SQL query at etl.py lines 171-187: the filtered log rows
(with their derived columns) inner-joined to the re-read song rows on
st.artist_name = lt.artist and to the time table on tt.start_time =
lt.start_time, projected to the selected tuple, with DISTINCT applied. -/
def songplays_table (logRows : List LogRow) (songRows : List SongRow) :
    List SongplayRow :=
  ((filterNextSong logRows).flatMap (fun l =>
    songRows.flatMap (fun st =>
      if sqlEqString st.artist_name l.artist then
        ((time_table logRows).filter
            (fun tt => sqlEqTimestamp tt.start_time (mkTimeRow l).start_time)).map
          (fun tt =>
            { start_time := (mkTimeRow l).start_time, userId := l.userId,
              level := l.level, sessionId := l.sessionId, location := l.location,
              userAgent := l.userAgent, song_id := st.song_id,
              artist_id := st.artist_id, year := tt.year, month := tt.month })
      else []))).dedup

/-- Embeds monotonically_increasing_id (etl.py line 190): the row at index rowIndex
of partition partitionIndex receives the id partitionIndex * 2 ^ 33 + rowIndex;
Spark guarantees the id is unique provided each partition holds at most 2 ^ 33
rows. -/
def monotonically_increasing_id (partitionIndex rowIndex : Nat) : Nat :=
  partitionIndex * 2 ^ 33 + rowIndex

/-- Embeds songplays_table.withColumn(songplay_id, monotonically_increasing_id())
at etl.py line 190: partitions lists the rows of each partition of the songplays
dataframe in order, and every row is paired with its assigned id. -/
def assign_songplay_ids (partitions : List (List SongplayRow)) :
    List (SongplayRow × Nat) :=
  partitions.enum.flatMap (fun p =>
    p.2.enum.map (fun r => (r.2, monotonically_increasing_id p.1 r.1)))

/-! ## Concrete sample inputs -/

/-- Sample NextSong log record (ts 946684800000 is 2000-01-01T00:00:00Z). -/
def sampleLog : LogRow :=
  { page := some ("NextSong"), ts := some 946684800000, userId := some ("U1"),
    artist := some ("Artist X"), level := some ("free"), sessionId := some 1,
    location := some ("LA"), userAgent := some ("UA") }

/-- Second NextSong record of the same user with a different level. -/
def sampleLogSameUser : LogRow :=
  { page := some ("NextSong"), ts := some 946688400000, userId := some ("U1"),
    artist := some ("Artist X"), level := some ("paid"), sessionId := some 2,
    location := some ("LA"), userAgent := some ("UA") }

/-- Log record of a page view that is not NextSong. -/
def sampleHomeLog : LogRow :=
  { page := some ("Home"), ts := some 946684800000, userId := some ("U2") }

/-- Log record whose page field is null. -/
def sampleNullPageLog : LogRow :=
  { ts := some 946684800000, userId := some ("U3") }

/-- Sample songplays row for exercising the id assignment. -/
def sampleSongplay : SongplayRow :=
  { start_time := Except.ok 946684800000, userId := some ("U1"),
    level := some ("free"), sessionId := some 1, location := some ("LA"),
    userAgent := some ("UA"), song_id := some ("S1"), artist_id := some ("A1"),
    year := Except.ok 2000, month := Except.ok 1 }

/-- Second sample songplays row. -/
def sampleSongplay2 : SongplayRow :=
  { sampleSongplay with userId := some ("U2") }

/-! ## Theorems -/

/-- C2: the claim requires that every song record with a non-null song_id yield
exactly one songs row whose title (among other fields) matches the source
record.  The declared song_data_schema omits the title field, so the select of
title in songs_table fails with AnalysisException and no songs row is produced
at all: evaluated at a concrete well-formed song record, the songs projection
yields an error rather than a row with the source title. -/
theorem C2_songs_projection_fails :
    ("title" ∈ song_data_schema → False) ∧
    songs_table (song_df [sampleSongRecord]) = Except.error analysisErrorMsg :=
  ⟨by decide, rfl⟩

/-- C3 counterexample: the claim states that for every input the artists
projection succeeds and num_songs resolves to null in every row.  At the
concrete one-record input the projection instead fails with AnalysisException,
because num_songs is not declared on song_data_schema and an unresolvable
column reference is an analysis error, not a null column. -/
theorem C3_cex :
    artists_table (song_df [sampleSongRecord]) = Except.error analysisErrorMsg :=
  rfl

/-- C3 amended: projecting num_songs, a field that song_data_schema does not
declare, fails the job with an analysis error for every input; it never
resolves to null. -/
theorem C3_amended_num_songs_select_fails (records : List Row) :
    artists_table (song_df records) = Except.error analysisErrorMsg :=
  rfl

/-- C4 counterexample: the claim states that writing a table to a location that
already contains prior content succeeds and overwrites it.  The write calls of
etl.py set no save mode, so the default error-if-exists mode applies, and at a
concrete location holding prior content the write fails instead of
overwriting. -/
theorem C4_cex :
    writeParquet defaultSaveMode (some [sampleSongRecord]) [sampleSongRecord]
      = Except.error ("AnalysisException: path already exists") :=
  rfl

/-- C4 amended: every output write of etl.py uses the default error-if-exists
save mode, so writing any of the tables to a location that already contains
prior content fails with a path-already-exists error; prior content is neither
overwritten nor appended to. -/
theorem C4_amended_writes_fail_on_existing (target : String) (mode : SaveMode)
    (h : (target, mode) ∈ etl_write_modes) (prior rows : List Row) :
    writeParquet mode (some prior) rows
      = Except.error ("AnalysisException: path already exists") := by
  have hm : mode = SaveMode.errorIfExists := by
    simp only [etl_write_modes, defaultSaveMode, List.mem_cons, List.mem_singleton,
      Prod.mk.injEq, List.not_mem_nil, or_false] at h
    rcases h with ⟨_, h⟩ | ⟨_, h⟩ | ⟨_, h⟩ | ⟨_, h⟩ | ⟨_, h⟩ <;> exact h
  rw [hm]
  rfl

/-- C4 amended, witness: the songs write with prior content at the target fails. -/
theorem C4_amended_writes_fail_on_existing_witness :
    ("songs_table.parquet", defaultSaveMode) ∈ etl_write_modes ∧
    writeParquet defaultSaveMode (some [sampleSongRecord]) []
      = Except.error ("AnalysisException: path already exists") :=
  ⟨by decide,
   C4_amended_writes_fail_on_existing ("songs_table.parquet") defaultSaveMode
     (by decide) [sampleSongRecord] []⟩

/-- C7 counterexample: the claim states that every raw-input read of the
pipelines is performed against an explicitly declared schema.  The read calls
of one run include the log pipeline re-read of the raw song source (etl.py
line 165), which passes no schema, so not every read carries one. -/
theorem C7_cex :
    ¬ (∀ r ∈ main_reads, r.schema.isSome = true) := by
  decide

/-- C7 amended: the song pipeline read and the log pipeline primary log read
pass explicitly declared schemas, but the re-read of the raw song source for
the songplays join passes no schema and relies on inference: of the three read
calls of one run, in order, exactly the last lacks a schema. -/
theorem C7_amended_only_join_reread_lacks_schema :
    main_reads.map (fun r => r.schema.isSome) = [true, true, false] ∧
    main_reads.map (fun r => r.path) = [song_data_path, log_data_path, song_data_path] :=
  ⟨rfl, rfl⟩

/-- C5 counterexample: the claim states that userId is unique across the users
table.  With two NextSong records of the same user (one free, one paid) the
users projection, which applies no deduplication, yields two distinct rows
carrying the same userId. -/
theorem C5_cex :
    ¬ (∀ u1 ∈ users_table [sampleLog, sampleLogSameUser],
        ∀ u2 ∈ users_table [sampleLog, sampleLogSameUser],
          u1 ≠ u2 → u1.userId ≠ u2.userId) := by
  decide

/-- C5 amended: the users table holds one row per filtered NextSong log record,
with no deduplication: for every userId value, the number of users rows
carrying it equals the number of NextSong log records carrying it, so a user
with several NextSong records appears several times. -/
theorem C5_amended_one_row_per_record (rows : List LogRow) (u : Option String) :
    ((users_table rows).filter (fun r => r.userId == u)).length
      = ((filterNextSong rows).filter (fun r => r.userId == u)).length := by
  unfold users_table
  generalize filterNextSong rows = l
  induction l with
  | nil => rfl
  | cons r rs ih =>
    simp only [List.map_cons, List.filter_cons]
    cases hq : (r.userId == u) with
    | false => simpa only [hq, Bool.false_eq_true, if_false] using ih
    | true => simp only [hq, if_true, List.length_cons, ih]

/-- Helper: dropping a log record that the NextSong filter rejects leaves the
filtered dataframe unchanged. -/
lemma filterNextSong_drop (pre post : List LogRow) (r : LogRow)
    (h : sqlEqString r.page (some ("NextSong")) = false) :
    filterNextSong (pre ++ r :: post) = filterNextSong (pre ++ post) := by
  unfold filterNextSong
  simp only [List.filter_append, List.filter_cons, h, Bool.false_eq_true, if_false]

/-- Helper: a log record that the NextSong filter rejects contributes no row to
users, time, or songplays: deleting it from the input leaves the three tables
unchanged. -/
lemma tables_drop_filtered (pre post : List LogRow) (r : LogRow)
    (songs : List SongRow) (h : sqlEqString r.page (some ("NextSong")) = false) :
    users_table (pre ++ r :: post) = users_table (pre ++ post) ∧
    time_table (pre ++ r :: post) = time_table (pre ++ post) ∧
    songplays_table (pre ++ r :: post) songs = songplays_table (pre ++ post) songs := by
  have hf := filterNextSong_drop pre post r h
  refine ⟨?_, ?_, ?_⟩ <;> simp only [users_table, time_table, songplays_table, hf]

/-- Helper: a page value other than NextSong makes the filter comparison false
(a null page compares as NULL, which the filter also treats as false). -/
lemma sqlEqString_page_false (p : Option String) (h : p ≠ some ("NextSong")) :
    sqlEqString p (some ("NextSong")) = false := by
  cases p with
  | none => rfl
  | some s =>
    have hs : (s == "NextSong") = false :=
      beq_eq_false_iff_ne.2 (fun he => h (by rw [he]))
    show (s == "NextSong") = false
    exact hs

/-- C6: for every log record whose page is not NextSong, no row of users, time,
or songplays derives from it: deleting the record from the input, wherever it
stands, leaves all three tables unchanged. -/
theorem C6_non_nextsong_contributes_nothing (pre post : List LogRow) (r : LogRow)
    (songs : List SongRow) (h : r.page ≠ some ("NextSong")) :
    users_table (pre ++ r :: post) = users_table (pre ++ post) ∧
    time_table (pre ++ r :: post) = time_table (pre ++ post) ∧
    songplays_table (pre ++ r :: post) songs = songplays_table (pre ++ post) songs :=
  tables_drop_filtered pre post r songs (sqlEqString_page_false r.page h)

/-- C6 witness: a well-formed Home page-view record between two NextSong records
contributes no row to any of the three tables. -/
theorem C6_non_nextsong_contributes_nothing_witness :
    users_table ([sampleLog] ++ sampleHomeLog :: [sampleLogSameUser])
      = users_table ([sampleLog] ++ [sampleLogSameUser]) ∧
    time_table ([sampleLog] ++ sampleHomeLog :: [sampleLogSameUser])
      = time_table ([sampleLog] ++ [sampleLogSameUser]) ∧
    songplays_table ([sampleLog] ++ sampleHomeLog :: [sampleLogSameUser]) []
      = songplays_table ([sampleLog] ++ [sampleLogSameUser]) [] :=
  C6_non_nextsong_contributes_nothing [sampleLog] [sampleLogSameUser]
    sampleHomeLog [] (by decide)

/-- C10: for every log record whose page field is null, no row of users, time,
or songplays derives from it: the equality filter page == NextSong yields NULL
on a null page and the filter drops the row, so deleting such a record from the
input leaves all three tables unchanged. -/
theorem C10_null_page_contributes_nothing (pre post : List LogRow) (r : LogRow)
    (songs : List SongRow) (h : r.page = none) :
    users_table (pre ++ r :: post) = users_table (pre ++ post) ∧
    time_table (pre ++ r :: post) = time_table (pre ++ post) ∧
    songplays_table (pre ++ r :: post) songs = songplays_table (pre ++ post) songs :=
  tables_drop_filtered pre post r songs (by rw [h]; rfl)

/-- C10 witness: a record with a null page between two NextSong records
contributes no row to any of the three tables. -/
theorem C10_null_page_contributes_nothing_witness :
    users_table ([sampleLog] ++ sampleNullPageLog :: [sampleLogSameUser])
      = users_table ([sampleLog] ++ [sampleLogSameUser]) ∧
    time_table ([sampleLog] ++ sampleNullPageLog :: [sampleLogSameUser])
      = time_table ([sampleLog] ++ [sampleLogSameUser]) ∧
    songplays_table ([sampleLog] ++ sampleNullPageLog :: [sampleLogSameUser]) []
      = songplays_table ([sampleLog] ++ [sampleLogSameUser]) [] :=
  C10_null_page_contributes_nothing [sampleLog] [sampleLogSameUser]
    sampleNullPageLog [] (by decide)

/-- C1: the claim requires start_time, both in the time table and as the
songplays join key, to be the seconds-precision timestamp derived once from ts.
In etl.py the seconds-precision conversion fromtimestamp(ts / 1000) is computed
only for the separate timestamp column, while start_time is derived by the
distinct udf lambda F.to_date(ts), which raises at evaluation; so at the
concrete failing record the start_time derivation differs from the timestamp
conversion, the start_time column holds no timestamp value, and the time table
write fails rather than producing the claimed start_time. -/
theorem C1_start_time_derivation_fails :
    get_datetime (some 946684800000) ≠ get_timestamp (some 946684800000) ∧
    (mkTimeRow sampleLog).start_time
      = Except.error ("AttributeError: pyspark.sql.functions.to_date cannot be evaluated inside a udf") ∧
    time_table_write [sampleLog]
      = Except.error ("Py4JJavaError: udf raised while evaluating the time table rows") :=
  ⟨by decide, rfl, rfl⟩

/-- Helper: the hour column lies in 0..23. -/
lemma F_hour_le (ms : Int) : F_hour ms ≤ 23 := by
  unfold F_hour
  have h0 : 0 ≤ Int.emod (tsSeconds ms) 86400 := Int.emod_nonneg _ (by decide)
  have h1 : Int.emod (tsSeconds ms) 86400 < 86400 := Int.emod_lt_of_pos _ (by decide)
  omega

/-- Helper: the civil month lies in 1..12 for every epoch day. -/
lemma civil_month_bounds (z : Int) :
    1 ≤ (civilFromDays z).2.1 ∧ (civilFromDays z).2.1 ≤ 12 := by
  unfold civilFromDays
  have h0 : 0 ≤ Int.emod (z + 719468) 146097 := Int.emod_nonneg _ (by decide)
  have h1 : Int.emod (z + 719468) 146097 < 146097 := Int.emod_lt_of_pos _ (by decide)
  simp only []
  split <;> omega

/-- Helper: the month column lies in 1..12. -/
lemma F_month_bounds (ms : Int) : 1 ≤ F_month ms ∧ F_month ms ≤ 12 :=
  civil_month_bounds (tsDays ms)

/-- Helper: an ISO year holds 52 or 53 ISO weeks. -/
lemma isoWeeksInYear_bounds (y : Int) :
    52 ≤ isoWeeksInYear y ∧ isoWeeksInYear y ≤ 53 := by
  unfold isoWeeksInYear
  split <;> omega

/-- Helper: the ISO clamping always lands in 1..53 when both neighbouring week
counts are ISO week counts. -/
lemma isoWeekClamp_bounds (w : Int) (wPrev wCur : Nat)
    (hp : 52 ≤ wPrev ∧ wPrev ≤ 53) (hc : wCur ≤ 53) :
    1 ≤ isoWeekClamp w wPrev wCur ∧ isoWeekClamp w wPrev wCur ≤ 53 := by
  unfold isoWeekClamp
  split
  · omega
  split
  · omega
  · omega

/-- Helper: the week column lies in 1..53. -/
lemma F_weekofyear_bounds (ms : Int) :
    1 ≤ F_weekofyear ms ∧ F_weekofyear ms ≤ 53 := by
  unfold F_weekofyear
  exact isoWeekClamp_bounds _ _ _
    (isoWeeksInYear_bounds ((civilFromDays (tsDays ms)).1 - 1))
    (isoWeeksInYear_bounds (civilFromDays (tsDays ms)).1).2

/-- Helper: a derived column of a time row that evaluated to a value comes from
an applied column function over a non-null ts. -/
lemma timeRow_ok_val {α : Type} {f : Int → α} {r : LogRow} {v : α}
    (hv : (get_timestamp r.ts).map f = Except.ok v) :
    ∃ x, r.ts = some x ∧ v = f x := by
  cases hts : r.ts with
  | none =>
    rw [hts] at hv
    exact absurd hv (by simp [get_timestamp, Except.map])
  | some x =>
    rw [hts] at hv
    simp only [get_timestamp, Except.map, Except.ok.injEq] at hv
    exact ⟨x, rfl, hv.symm⟩

/-- C9: for every row of the time table, the derived calendar fields lie in
their valid ranges: hour in 0..23, month in 1..12, and week in 1..53. -/
theorem C9_time_ranges (rows : List LogRow) (tr : TimeRow)
    (htr : tr ∈ time_table rows) :
    (∀ h, tr.hour = Except.ok h → h ≤ 23) ∧
    (∀ m, tr.month = Except.ok m → 1 ≤ m ∧ m ≤ 12) ∧
    (∀ w, tr.week = Except.ok w → 1 ≤ w ∧ w ≤ 53) := by
  unfold time_table at htr
  rcases List.mem_map.1 htr with ⟨r, _, rfl⟩
  refine ⟨?_, ?_, ?_⟩ <;> intro v hv
  · rcases timeRow_ok_val hv with ⟨x, _, rfl⟩
    exact F_hour_le x
  · rcases timeRow_ok_val hv with ⟨x, _, rfl⟩
    exact F_month_bounds x
  · rcases timeRow_ok_val hv with ⟨x, _, rfl⟩
    exact F_weekofyear_bounds x

/-- C9 witness: the time row of the sample NextSong record satisfies the
range bounds. -/
theorem C9_time_ranges_witness :
    (∀ h, (mkTimeRow sampleLog).hour = Except.ok h → h ≤ 23) ∧
    (∀ m, (mkTimeRow sampleLog).month = Except.ok m → 1 ≤ m ∧ m ≤ 12) ∧
    (∀ w, (mkTimeRow sampleLog).week = Except.ok w → 1 ≤ w ∧ w ≤ 53) :=
  C9_time_ranges [sampleLog] (mkTimeRow sampleLog) (by decide)

/-- Helper: the ids produced by the songplay id assignment, partition by
partition, are the per-partition ranges shifted by the partition offset. -/
lemma assign_ids_map_snd (partitions : List (List SongplayRow)) :
    (assign_songplay_ids partitions).map Prod.snd
      = partitions.enum.flatMap (fun p =>
          (List.range p.2.length).map (fun j => monotonically_increasing_id p.1 j)) := by
  unfold assign_songplay_ids
  rw [List.map_flatMap]
  congr 1
  funext p
  rw [List.map_map]
  have hcomp : (Prod.snd ∘ fun r : Nat × SongplayRow =>
        (r.2, monotonically_increasing_id p.1 r.1))
      = (fun j => monotonically_increasing_id p.1 j) ∘ Prod.fst := rfl
  rw [hcomp, ← List.map_map, List.enum_map_fst]

/-- C8: for every run, the songplay_id values assigned by
monotonically_increasing_id are unique per row, provided each partition of the
songplays dataframe holds at most 2 ^ 33 rows (the documented bound under which
Spark guarantees uniqueness). -/
theorem C8_songplay_id_unique (partitions : List (List SongplayRow))
    (hbound : ∀ p ∈ partitions, p.length ≤ 2 ^ 33) :
    ((assign_songplay_ids partitions).map Prod.snd).Nodup := by
  rw [assign_ids_map_snd, List.nodup_flatMap]
  constructor
  · intro p _
    refine (List.nodup_range _).map ?_
    intro a b hab
    simp only [monotonically_increasing_id] at hab
    omega
  · have hfst : partitions.enum.Pairwise (fun a b => a.1 ≠ b.1) := by
      have hnd := List.nodup_enum_map_fst partitions
      rw [List.Nodup, List.pairwise_map] at hnd
      exact hnd
    refine List.Pairwise.imp_of_mem ?_ hfst
    intro a b ha hb hne
    have ha2 : a.2 ∈ partitions := by
      rw [← List.enum_map_snd partitions]
      exact List.mem_map_of_mem Prod.snd ha
    have hb2 : b.2 ∈ partitions := by
      rw [← List.enum_map_snd partitions]
      exact List.mem_map_of_mem Prod.snd hb
    have hla := hbound a.2 ha2
    have hlb := hbound b.2 hb2
    intro x hxa hxb
    rcases List.mem_map.1 hxa with ⟨j, hj, rfl⟩
    rcases List.mem_map.1 hxb with ⟨k, hk, hjk⟩
    rw [List.mem_range] at hj hk
    unfold monotonically_increasing_id at hjk
    omega

/-- C8 witness: two partitions of sample songplay rows within the bound receive
pairwise distinct ids. -/
theorem C8_songplay_id_unique_witness :
    (∀ p ∈ [[sampleSongplay, sampleSongplay2], [sampleSongplay]],
        p.length ≤ 2 ^ 33) ∧
    ((assign_songplay_ids [[sampleSongplay, sampleSongplay2], [sampleSongplay]]).map
        Prod.snd).Nodup :=
  ⟨by decide,
   C8_songplay_id_unique [[sampleSongplay, sampleSongplay2], [sampleSongplay]]
     (by decide)⟩

end ETL
